import Mathlib

/-!
Shallow embedding of the weatherlogging repository (grid store, nearest-grid-point
resolver, and time-series aggregation), with theorems checking the specification's
claims against the embedded code.

Conventions of the embedding:
* Python floats appearing in the numeric pipeline are modelled as rationals; the
  float NaN is a separate constructor of the dynamic value type.
* Timestamps are whole days counted from an epoch Monday, so calendar weeks
  ending Sunday are the blocks of seven consecutive day numbers starting at a
  multiple of seven.
* The MySQL tables are modelled as in-memory row lists.  The DDL of the coords
  and data tables is not part of the source tree, so its constraints are
  modelled from the specification where noted.
-/

/-- Dynamic Python value as it flows through the ingestion and query paths:
the float NaN, floats and ints (both as rationals), strings, and None. -/
inductive PyVal where
  | pyNone : PyVal
  | pyInt : Int → PyVal
  | pyFloat : Rat → PyVal
  | pyFloatNaN : PyVal
  | pyStr : String → PyVal
deriving DecidableEq, Repr

/-- database.py _to_none: returns None exactly when the value is a float and
math.isnan holds of it, i.e. exactly for the float NaN; every other value, a
non-numeric string included, is returned unchanged. -/
def _to_none (value : PyVal) : PyVal :=
  match value with
  | PyVal.pyFloatNaN => PyVal.pyNone
  | v => v

/-- pd.to_numeric(errors="coerce") applied to one cell: ints and floats pass
through as numbers, NaN and None are missing, and a string cell is a
non-numeric token at this stage (numeric text was already parsed upstream by
read_csv or the DB driver), so it coerces to missing. -/
def to_numeric_cell (v : PyVal) : Option Rat :=
  match v with
  | PyVal.pyInt n => some (n : Rat)
  | PyVal.pyFloat x => some x
  | PyVal.pyFloatNaN => none
  | PyVal.pyNone => none
  | PyVal.pyStr _ => none

/-- One observation record as handed to database.py Database.add_data /
add_data_from_df: an id, a timestamp (days), and the seven numeric fields as
dynamic values. -/
structure ObsRecord where
  id : Int
  time : Int
  temp : PyVal
  humidity : PyVal
  clouds : PyVal
  rain : PyVal
  wind : PyVal
  wind_dir : PyVal
  gusts : PyVal
deriving DecidableEq, Repr

/-- database.py Database.add_data (and, row for row, add_data_from_df): the
values tuple handed to the INSERT after each numeric field went through
_to_none. -/
def add_data_stored (o : ObsRecord) : ObsRecord :=
  { o with
    temp := _to_none o.temp
    humidity := _to_none o.humidity
    clouds := _to_none o.clouds
    rain := _to_none o.rain
    wind := _to_none o.wind
    wind_dir := _to_none o.wind_dir
    gusts := _to_none o.gusts }

/-- One row of the coords table. -/
structure GridRow where
  id : Int
  lat : Rat
  lon : Rat
deriving DecidableEq, Repr

/-- Error taxonomy of the store, following the specification. -/
inductive DBErr where
  | constraintError : DBErr
  | referentialError : DBErr
deriving DecidableEq, Repr

/-- Modelled from the spec: the DDL of the coords table is not in src/, so the
row constraints come from the specification's store contract — lat must lie in
[-90, 90], lon in [-180, 180]. -/
def validCoord (lat lon : Rat) : Prop :=
  -90 ≤ lat ∧ lat ≤ 90 ∧ -180 ≤ lon ∧ lon ≤ 180

instance (lat lon : Rat) : Decidable (validCoord lat lon) := by
  unfold validCoord; infer_instance

/-- Modelled from the spec: one INSERT INTO coords executed against the
connection.  The missing DDL declares id as primary key and the coordinate
ranges above, so the statement fails with a constraint error on an
out-of-range coordinate or a duplicate id, adding nothing; otherwise the row
is appended in insertion order. -/
def insert_coord_row (table : List GridRow) (id_ : Int) (lat lon : Rat) :
    Except DBErr (List GridRow) :=
  if ¬ validCoord lat lon then Except.error DBErr.constraintError
  else if table.any (fun r => decide (r.id = id_)) then Except.error DBErr.constraintError
  else Except.ok (table ++ [⟨id_, lat, lon⟩])

/-- database.py Database.add_coords: a single INSERT followed by a commit.  If
the statement raises, the commit is never reached, so the durable table is the
input table; on success the committed table has the new row appended. -/
def add_coords (table : List GridRow) (id_ : Int) (lat lon : Rat) :
    Except DBErr (List GridRow) :=
  insert_coord_row table id_ lat lon

/-- database.py Database.add_coords_from_df: every row of the dataframe is
staged through one executemany call and a single commit follows.  If any row
raises, the exception propagates before the commit, so nothing of the batch
becomes durable (the result is an error and the durable table stays the input
table); otherwise the whole batch is committed at once. -/
def add_coords_from_df (table : List GridRow) (df : List GridRow) :
    Except DBErr (List GridRow) :=
  df.foldlM (fun t r => insert_coord_row t r.id r.lat r.lon) table

/-- database.py Database.get_coords_from_id: SELECT * FROM coords WHERE id = %s,
returned in stored row order; the to_numeric calls on lat and lon are the
identity on numeric values. -/
def get_coords_from_id (table : List GridRow) (id_ : Int) : List GridRow :=
  table.filter (fun r => decide (r.id = id_))

/-- One row of the merged coords dataframe that data_analysis.py main hands to
get_nearest_id: grid id and coordinates joined with the backing station's
coordinates. -/
structure CoordRow where
  id : Int
  lat : Rat
  lon : Rat
  lat_station : Rat
  lon_station : Rat
deriving DecidableEq, Repr

/-- The coords dataframe as a mutable object: its rows, plus the lat_diff and
lon_diff columns which exist only after get_nearest_id has written them
(column values are per row, in row order). -/
structure CoordsDf where
  rows : List CoordRow
  lat_diff : Option (List Rat)
  lon_diff : Option (List Rat)
deriving DecidableEq, Repr

/-- Absolute value on the rational model of Python floats (pandas .abs()). -/
def ratAbs (x : Rat) : Rat :=
  if x < 0 then -x else x

/-- pandas Series.min (over a list without NaN): none on an empty series,
otherwise the least element. -/
def seriesMin {α : Type} [LinearOrder α] : List α → Option α
  | [] => none
  | a :: t =>
    match seriesMin t with
    | none => some a
    | some m => some (min a m)

/-- pandas Series.max, dually. -/
def seriesMax {α : Type} [LinearOrder α] : List α → Option α
  | [] => none
  | a :: t =>
    match seriesMax t with
    | none => some a
    | some m => some (max a m)

/-- data_analysis.py get_nearest_id.  It writes the lat_diff and lon_diff
columns into the caller's dataframe in place (returned as the second
component), takes the per-axis minima, filters the rows attaining each
minimum, intersects the two filtered frames with an inner merge on all shared
columns (row-value equality; since the diff columns are functions of lat and
lon, this is equality of the underlying rows, and the inner merge keeps the
left frame's row order), and returns id, lat, lon of the first merged row, or
None when the merge is empty (also when the frame is empty, where the column
minima are NaN and both filters are empty). -/
def get_nearest_id (coords : CoordsDf) (lat_input lon_input : Rat) :
    (Option (Int × Rat × Rat)) × CoordsDf :=
  let latd := coords.rows.map fun r => ratAbs (r.lat - lat_input)
  let lond := coords.rows.map fun r => ratAbs (r.lon - lon_input)
  let coords1 : CoordsDf := ⟨coords.rows, some latd, some lond⟩
  match seriesMin latd, seriesMin lond with
  | some min_lat_diff, some min_lon_diff =>
    let nearest_lat_rows := coords.rows.filter fun r => decide (ratAbs (r.lat - lat_input) = min_lat_diff)
    let nearest_lon_rows := coords.rows.filter fun r => decide (ratAbs (r.lon - lon_input) = min_lon_diff)
    let nearest_rows := nearest_lat_rows.filter fun r => decide (r ∈ nearest_lon_rows)
    match nearest_rows with
    | [] => (none, coords1)
    | r :: _ => (some (r.id, r.lat, r.lon), coords1)
  | _, _ => (none, coords1)

/-- Spec-side restatement of the resolver (for the refinement check): the set
of rows achieving the minimum latitude difference intersected with the set
achieving the minimum longitude difference, first element under stable row
order, no-match when the intersection is empty. -/
def resolver_spec (rows : List CoordRow) (lat_input lon_input : Rat) :
    Option (Int × Rat × Rat) :=
  (rows.filter fun r =>
      decide ((∀ s ∈ rows, ratAbs (r.lat - lat_input) ≤ ratAbs (s.lat - lat_input)) ∧
              (∀ s ∈ rows, ratAbs (r.lon - lon_input) ≤ ratAbs (s.lon - lon_input)))).head?.map
    fun r => (r.id, r.lat, r.lon)

/-- The spec's resolver edge case: three grid points with lats 10, 20, 30 and
lons 5, 100, 6 (station coordinates immaterial), no diff columns yet. -/
def edge_coords : CoordsDf :=
  ⟨[⟨0, 10, 5, 0, 0⟩, ⟨1, 20, 100, 0, 0⟩, ⟨2, 30, 6, 0, 0⟩], none, none⟩

/-- seriesMin is none exactly on the empty series. -/
theorem seriesMin_eq_none {α : Type} [LinearOrder α] {l : List α} :
    seriesMin l = none ↔ l = [] := by
  cases l with
  | nil => simp [seriesMin]
  | cons a t =>
    simp only [seriesMin]
    cases seriesMin t <;> simp

/-- The minimum of a series is a lower bound for its members. -/
theorem seriesMin_le {α : Type} [LinearOrder α] {l : List α} {m a : α}
    (hm : seriesMin l = some m) (ha : a ∈ l) : m ≤ a := by
  induction l generalizing m with
  | nil => cases ha
  | cons b t ih =>
    cases ht : seriesMin t with
    | none =>
      have ht' : t = [] := seriesMin_eq_none.mp ht
      subst ht'
      have hm' : m = b := by
        rw [seriesMin, ht] at hm
        exact (Option.some_inj.mp hm).symm
      rcases List.mem_cons.mp ha with rfl | hat
      · exact le_of_eq hm'
      · cases hat
    | some mt =>
      have hm' : m = min b mt := by
        rw [seriesMin, ht] at hm
        exact (Option.some_inj.mp hm).symm
      rcases List.mem_cons.mp ha with rfl | hat
      · exact hm' ▸ min_le_left _ _
      · exact hm' ▸ le_trans (min_le_right _ _) (ih ht hat)

/-- The minimum of a nonempty series is one of its members. -/
theorem seriesMin_mem {α : Type} [LinearOrder α] {l : List α} {m : α}
    (hm : seriesMin l = some m) : m ∈ l := by
  induction l generalizing m with
  | nil => cases hm
  | cons b t ih =>
    cases ht : seriesMin t with
    | none =>
      have hm' : m = b := by
        rw [seriesMin, ht] at hm
        exact (Option.some_inj.mp hm).symm
      simp [hm']
    | some mt =>
      have hm' : m = min b mt := by
        rw [seriesMin, ht] at hm
        exact (Option.some_inj.mp hm).symm
      rcases min_choice b mt with h | h
      · rw [hm', h]; exact List.mem_cons_self _ _
      · rw [hm', h]; exact List.mem_cons_of_mem _ (ih ht)

/-- A nonempty series has a minimum. -/
theorem seriesMin_cons {α : Type} [LinearOrder α] (a : α) (t : List α) :
    ∃ m, seriesMin (a :: t) = some m := by
  cases ht : seriesMin t with
  | none => exact ⟨a, by simp [seriesMin, ht]⟩
  | some mt => exact ⟨min a mt, by simp [seriesMin, ht]⟩

/-- Characterization used for the resolver filters: for a member row, its
value equals the column minimum exactly when it is below every row's value. -/
theorem seriesMin_filter_char {β : Type} {f : β → Rat} {rows : List β} {m : Rat}
    (hm : seriesMin (rows.map f) = some m) {r : β} (hr : r ∈ rows) :
    f r = m ↔ ∀ s ∈ rows, f r ≤ f s := by
  constructor
  · intro h s hs
    exact h ▸ seriesMin_le hm (List.mem_map_of_mem f hs)
  · intro h
    have h1 : m ≤ f r := seriesMin_le hm (List.mem_map_of_mem f hr)
    rcases List.mem_map.mp (seriesMin_mem hm) with ⟨s, hs, hsm⟩
    exact le_antisymm (hsm ▸ h s hs) h1

/-- The two successive resolver filters coincide with the single filter for
rows attaining both axis minima. -/
theorem resolver_filter_eq (rows : List CoordRow) (lat_input lon_input m1 m2 : Rat)
    (hm1 : seriesMin (rows.map fun r => ratAbs (r.lat - lat_input)) = some m1)
    (hm2 : seriesMin (rows.map fun r => ratAbs (r.lon - lon_input)) = some m2) :
    ((rows.filter fun r => decide (ratAbs (r.lat - lat_input) = m1)).filter
        fun r => decide (r ∈ rows.filter fun s => decide (ratAbs (s.lon - lon_input) = m2)))
      = rows.filter fun r =>
          decide ((∀ s ∈ rows, ratAbs (r.lat - lat_input) ≤ ratAbs (s.lat - lat_input)) ∧
                  (∀ s ∈ rows, ratAbs (r.lon - lon_input) ≤ ratAbs (s.lon - lon_input))) := by
  rw [List.filter_filter]
  apply List.filter_congr
  intro r hr
  rw [Bool.eq_iff_iff]
  simp only [Bool.and_eq_true, decide_eq_true_eq, List.mem_filter]
  constructor
  · rintro ⟨hmem, h1⟩
    exact ⟨(seriesMin_filter_char hm1 hr).mp h1, (seriesMin_filter_char hm2 hr).mp hmem.2⟩
  · rintro ⟨h1, h2⟩
    exact ⟨⟨hr, (seriesMin_filter_char hm2 hr).mpr h2⟩, (seriesMin_filter_char hm1 hr).mpr h1⟩

unseal Rat.add Rat.sub Rat.mul Rat.inv in
/-- C1: the resolver computes per-axis absolute differences, intersects the
set of rows attaining the minimum latitude difference with the set attaining
the minimum longitude difference, and returns id, lat, lon of the first row
of the intersection in stable row order, or no match when the intersection is
empty; in particular the three-point grid with lats 10, 20, 30 and lons 5,
100, 6 queried at (20, 5) yields no match. -/
theorem resolver_matches_axis_min_intersection :
    (∀ (coords : CoordsDf) (lat_input lon_input : Rat),
      (get_nearest_id coords lat_input lon_input).1
        = resolver_spec coords.rows lat_input lon_input) ∧
    (get_nearest_id edge_coords 20 5).1 = none := by
  constructor
  · intro coords lat_input lon_input
    rcases coords with ⟨rows, d1, d2⟩
    cases rows with
    | nil => simp [get_nearest_id, resolver_spec, seriesMin]
    | cons a t =>
      obtain ⟨m1, hm1⟩ :
          ∃ m, seriesMin ((a :: t).map fun r => ratAbs (r.lat - lat_input)) = some m := by
        rw [List.map_cons]
        exact seriesMin_cons _ _
      obtain ⟨m2, hm2⟩ :
          ∃ m, seriesMin ((a :: t).map fun r => ratAbs (r.lon - lon_input)) = some m := by
        rw [List.map_cons]
        exact seriesMin_cons _ _
      simp only [get_nearest_id, resolver_spec, hm1, hm2]
      rw [resolver_filter_eq _ _ _ _ _ hm1 hm2]
      cases h : (a :: t).filter fun r =>
          decide ((∀ s ∈ a :: t, ratAbs (r.lat - lat_input) ≤ ratAbs (s.lat - lat_input)) ∧
                  (∀ s ∈ a :: t, ratAbs (r.lon - lon_input) ≤ ratAbs (s.lon - lon_input))) with
      | nil => simp
      | cons r rest => simp
  · decide

/-- The resolver reads only the rows of the dataframe; the diff columns it
finds there are overwritten before any use. -/
theorem gni_ignores_diffs (rows : List CoordRow) (d1 d2 d1' d2' : Option (List Rat))
    (lat_input lon_input : Rat) :
    get_nearest_id ⟨rows, d1, d2⟩ lat_input lon_input
      = get_nearest_id ⟨rows, d1', d2'⟩ lat_input lon_input := rfl

/-- The dataframe coming out of the resolver: same rows, freshly written diff
columns. -/
theorem gni_snd (coords : CoordsDf) (lat_input lon_input : Rat) :
    (get_nearest_id coords lat_input lon_input).2
      = ⟨coords.rows, some (coords.rows.map fun r => ratAbs (r.lat - lat_input)),
          some (coords.rows.map fun r => ratAbs (r.lon - lon_input))⟩ := by
  rcases coords with ⟨rows, d1, d2⟩
  simp only [get_nearest_id]
  rcases h1 : seriesMin (rows.map fun r => ratAbs (r.lat - lat_input)) with _ | m1 <;>
    rcases h2 : seriesMin (rows.map fun r => ratAbs (r.lon - lon_input)) with _ | m2 <;>
      simp only [h1, h2] <;>
        first
          | rfl
          | (split <;> rfl)

/-- C7: resolver determinism across the in-place mutation — calling
get_nearest_id a second time, on the dataframe state the first call left
behind, with the same query point, returns the identical result triple (or
the identical no-match) and the identical dataframe state. -/
theorem resolver_deterministic :
    ∀ (coords : CoordsDf) (lat_input lon_input : Rat),
      get_nearest_id ((get_nearest_id coords lat_input lon_input).2) lat_input lon_input
        = get_nearest_id coords lat_input lon_input := by
  intro coords lat_input lon_input
  rcases coords with ⟨rows, d1, d2⟩
  rw [gni_snd]
  exact gni_ignores_diffs rows _ _ d1 d2 lat_input lon_input

/-- C9: every resolver call writes the lat_diff and lon_diff columns into the
caller's dataframe (creating or overwriting them with the absolute
differences to the query point, in row order), while the rows themselves —
ids, coordinates, station coordinates, and their order — are unchanged. -/
theorem resolver_mutates_diff_columns :
    ∀ (coords : CoordsDf) (lat_input lon_input : Rat),
      ((get_nearest_id coords lat_input lon_input).2).rows = coords.rows ∧
      ((get_nearest_id coords lat_input lon_input).2).lat_diff
        = some (coords.rows.map fun r => ratAbs (r.lat - lat_input)) ∧
      ((get_nearest_id coords lat_input lon_input).2).lon_diff
        = some (coords.rows.map fun r => ratAbs (r.lon - lon_input)) := by
  intro coords lat_input lon_input
  rw [gni_snd]
  exact ⟨rfl, rfl, rfl⟩

/-- Observation whose numeric fields all carry the float NaN, the
absent-value representation inside the ingestion dataframes. -/
def obs_nan : ObsRecord :=
  ⟨0, 0, PyVal.pyFloatNaN, PyVal.pyFloatNaN, PyVal.pyFloatNaN, PyVal.pyFloatNaN,
    PyVal.pyFloatNaN, PyVal.pyFloatNaN, PyVal.pyFloatNaN⟩

/-- Observation whose temp field carries the NULL string that
weatherlogging.py get_data_from_api substitutes when the API response lacks
the field; the remaining fields are ordinary numbers. -/
def obs_api_null : ObsRecord :=
  ⟨0, 0, PyVal.pyStr ("NULL"), PyVal.pyInt 50, PyVal.pyInt 10, PyVal.pyFloat 0,
    PyVal.pyFloat 3, PyVal.pyInt 180, PyVal.pyFloat 5⟩

/-- C2 evaluation: a NaN numeric field is stored as None (the no-value
marker) and read back as missing, but a non-numeric NULL string — produced by
the ingestion path for an absent field — passes through _to_none unchanged
and is handed to the INSERT as a string, not as the no-value marker, contrary
to _to_none's own docstring. -/
theorem stored_no_value_evaluation :
    (add_data_stored obs_nan).temp = PyVal.pyNone ∧
    (add_data_stored obs_nan).rain = PyVal.pyNone ∧
    to_numeric_cell PyVal.pyNone = none ∧
    (add_data_stored obs_api_null).temp = PyVal.pyStr ("NULL") ∧
    PyVal.pyStr ("NULL") ≠ PyVal.pyNone := by
  refine ⟨rfl, rfl, rfl, rfl, ?_⟩
  intro h
  cases h

/-- Single-insert outcome analysis: the statement either appends the row or
fails with the constraint error. -/
theorem insert_coord_row_cases (table : List GridRow) (id_ : Int) (lat lon : Rat) :
    insert_coord_row table id_ lat lon = Except.ok (table ++ [⟨id_, lat, lon⟩]) ∨
    insert_coord_row table id_ lat lon = Except.error DBErr.constraintError := by
  unfold insert_coord_row
  split
  · exact Or.inr rfl
  · split
    · exact Or.inr rfl
    · exact Or.inl rfl

/-- C3: add_coords rejects with the constraint error every row whose latitude
is outside [-90, 90] or longitude outside [-180, 180], and every row whose id
duplicates an already stored grid id; the error propagates before the commit,
so no such row is added to the table. -/
theorem add_coords_constraint_reject :
    ∀ (table : List GridRow) (id_ : Int) (lat lon : Rat),
      (¬ validCoord lat lon ∨ id_ ∈ table.map GridRow.id) →
      add_coords table id_ lat lon = Except.error DBErr.constraintError := by
  intro table id_ lat lon h
  unfold add_coords insert_coord_row
  by_cases hv : validCoord lat lon
  · rcases h with h | h
    · exact absurd hv h
    · rw [if_neg (not_not_intro hv), if_pos]
      rw [List.any_eq_true]
      rcases List.mem_map.mp h with ⟨r, hr, hid⟩
      exact ⟨r, hr, by simp [hid]⟩
  · rw [if_pos hv]

/-- Witness for C3 at a concrete input: latitude 91 is out of range, so the
insert is rejected. -/
theorem add_coords_constraint_reject_witness :
    add_coords [] 0 91 0 = Except.error DBErr.constraintError :=
  add_coords_constraint_reject [] 0 91 0 (Or.inl (by decide))


/-- Unfolding the staged batch insert when the first row succeeds. -/
theorem acfd_cons_ok {table t : List GridRow} {r : GridRow} (rs : List GridRow)
    (h : insert_coord_row table r.id r.lat r.lon = Except.ok t) :
    add_coords_from_df table (r :: rs) = add_coords_from_df t rs := by
  unfold add_coords_from_df
  rw [List.foldlM, h]
  rfl

/-- Unfolding the staged batch insert when the first row fails. -/
theorem acfd_cons_err {table : List GridRow} {r : GridRow} {e : DBErr} (rs : List GridRow)
    (h : insert_coord_row table r.id r.lat r.lon = Except.error e) :
    add_coords_from_df table (r :: rs) = Except.error e := by
  unfold add_coords_from_df
  rw [List.foldlM, h]
  rfl

/-- C4: batch atomicity of insertGridPoints — a staged batch either commits
whole (the table afterwards is the old table with every row of the batch
appended) or fails before the single commit (the durable table is unchanged,
containing none of the batch); moreover any batch containing a row with an
out-of-range coordinate does fail. -/
theorem add_coords_batch_atomic :
    (∀ (table df : List GridRow),
        add_coords_from_df table df = Except.ok (table ++ df) ∨
        ∃ e, add_coords_from_df table df = Except.error e) ∧
    (∀ (table df : List GridRow) (r : GridRow), r ∈ df → ¬ validCoord r.lat r.lon →
        ∃ e, add_coords_from_df table df = Except.error e) := by
  constructor
  · intro table df
    induction df generalizing table with
    | nil => left; rw [List.append_nil]; rfl
    | cons r rs ih =>
      rcases insert_coord_row_cases table r.id r.lat r.lon with h | h
      · have hr : (⟨r.id, r.lat, r.lon⟩ : GridRow) = r := by cases r; rfl
        rw [hr] at h
        rw [acfd_cons_ok rs h]
        rcases ih (table ++ [r]) with h2 | ⟨e, h2⟩
        · left
          rw [h2, List.append_assoc]
          rfl
        · right
          exact ⟨e, h2⟩
      · right
        exact ⟨DBErr.constraintError, acfd_cons_err rs h⟩
  · intro table df r hmem hbad
    induction df generalizing table with
    | nil => cases hmem
    | cons a rs ih =>
      rcases List.mem_cons.mp hmem with rfl | hmem'
      · refine ⟨DBErr.constraintError, ?_⟩
        refine acfd_cons_err rs ?_
        unfold insert_coord_row
        rw [if_pos hbad]
      · rcases insert_coord_row_cases table a.id a.lat a.lon with h | h
        · rw [acfd_cons_ok rs h]
          exact ih _ hmem'
        · exact ⟨DBErr.constraintError, acfd_cons_err rs h⟩

/-- Witness for C4 at a concrete input: a one-row batch whose row has
latitude 91 fails, leaving the committed table unchanged. -/
theorem add_coords_batch_atomic_witness :
    ∃ e, add_coords_from_df [] [⟨0, 91, 0⟩] = Except.error e :=
  add_coords_batch_atomic.2 [] [⟨0, 91, 0⟩] ⟨0, 91, 0⟩ (List.mem_singleton.mpr rfl)
    (by decide)

/-- C8: round-trip — when add_coords succeeds for a grid point, querying the
store for that id returns exactly one row, and it carries the inserted id,
latitude and longitude. -/
theorem coords_roundtrip :
    ∀ (table table' : List GridRow) (id_ : Int) (lat lon : Rat),
      add_coords table id_ lat lon = Except.ok table' →
      get_coords_from_id table' id_ = [⟨id_, lat, lon⟩] := by
  intro table table' id_ lat lon h
  unfold add_coords insert_coord_row at h
  by_cases hv : validCoord lat lon
  · rw [if_neg (not_not_intro hv)] at h
    by_cases hd : table.any (fun r => decide (r.id = id_))
    · rw [if_pos hd] at h
      cases h
    · rw [if_neg hd] at h
      injection h with h'
      subst h'
      unfold get_coords_from_id
      rw [List.filter_append]
      have h1 : table.filter (fun r => decide (r.id = id_)) = [] := by
        rw [List.filter_eq_nil_iff]
        intro r hr
        simp only [decide_eq_true_eq]
        intro he
        exact hd (List.any_eq_true.mpr ⟨r, hr, by simp [he]⟩)
      rw [h1]
      simp
  · rw [if_pos hv] at h
    cases h

/-- Witness for C8 at a concrete input: inserting grid point (0, 1, 2) into
the empty store and querying id 0 returns exactly that row. -/
theorem coords_roundtrip_witness :
    get_coords_from_id [⟨0, 1, 2⟩] 0 = [⟨0, 1, 2⟩] :=
  coords_roundtrip [] [⟨0, 1, 2⟩] 0 1 2 (by rfl)

/-- Sorted copy of a series of rationals, as pandas produces before order
statistics (median, quantile). -/
def sortRat (l : List Rat) : List Rat :=
  List.insertionSort (fun a b => a ≤ b) l

/-- pandas Series.median with the default NaN skipping already applied to the
input: none when there are no values, the middle of the sorted values for odd
length, and the mean of the two middle values for even length. -/
def series_median (l : List Rat) : Option Rat :=
  let s := sortRat l
  if s.length = 0 then none
  else if s.length % 2 = 1 then s[s.length / 2]?
  else some ((s[s.length / 2 - 1]?.getD 0 + s[s.length / 2]?.getD 0) / 2)

/-- Week bucket of a day stamp: days are counted from an epoch Monday, so the
block of seven days starting at 7*w is the calendar week (Monday through
Sunday, pandas frequency W, right-closed on Sundays) with index w. -/
def weekOf (d : Int) : Int := Int.fdiv d 7

/-- Values present in a given week bucket of the series (absent entries are
dropped here, as pandas median skips NaN). -/
def bucket_values (series : List (Int × Option Rat)) (w : Int) : List Rat :=
  (series.filter fun p => decide (weekOf p.1 = w)).filterMap Prod.snd

/-- data_analysis.py create_graph, weekly median overlay:
resample(W).median(numeric_only=True) on one numeric column — one output
bucket per calendar week from the first through the last week of the index,
gap weeks included, each holding the median of the week's present values
(NaN, modelled as none, when the week has no present value). -/
def resample_weekly_median (series : List (Int × Option Rat)) : List (Int × Option Rat) :=
  match seriesMin (series.map fun p => weekOf p.1),
      seriesMax (series.map fun p => weekOf p.1) with
  | some w0, some w1 =>
    (List.range ((w1 - w0).toNat + 1)).map fun i =>
      (w0 + i, series_median (bucket_values series (w0 + i)))
  | _, _ => []

/-- The median of a nonempty constant list is that constant. -/
theorem series_median_const {l : List Rat} {c : Rat} (hne : l ≠ [])
    (hc : ∀ x ∈ l, x = c) : series_median l = some c := by
  have hperm := List.perm_insertionSort (fun a b : Rat => a ≤ b) l
  have hmem : ∀ x ∈ sortRat l, x = c := fun x hx => hc x (hperm.mem_iff.mp hx)
  have hlen : (sortRat l).length = l.length := hperm.length_eq
  have hpos : 0 < (sortRat l).length := by
    rw [hlen]
    exact List.length_pos.mpr hne
  unfold series_median
  rw [if_neg (Nat.pos_iff_ne_zero.mp hpos)]
  by_cases hodd : (sortRat l).length % 2 = 1
  · rw [if_pos hodd]
    have hidx : (sortRat l).length / 2 < (sortRat l).length :=
      Nat.div_lt_self hpos (by norm_num)
    rw [List.getElem?_eq_getElem hidx]
    exact congrArg some (hmem _ (List.getElem_mem hidx))
  · rw [if_neg hodd]
    have h2 : 2 ≤ (sortRat l).length := by omega
    have hi1 : (sortRat l).length / 2 - 1 < (sortRat l).length := by omega
    have hi2 : (sortRat l).length / 2 < (sortRat l).length :=
      Nat.div_lt_self hpos (by norm_num)
    rw [List.getElem?_eq_getElem hi1, List.getElem?_eq_getElem hi2]
    simp only [Option.getD_some]
    rw [hmem _ (List.getElem_mem hi1), hmem _ (List.getElem_mem hi2)]
    exact congrArg some (by ring)

/-- C5: resampling a series whose present values are all 10 into weekly
median buckets yields 10 for every week with at least one present value and
the no-value marker — not zero and not an error — for every bucket week with
no present value. -/
theorem weekly_median_const_ten :
    ∀ (series : List (Int × Option Rat)),
      (∀ p ∈ series, p.2 = none ∨ p.2 = some 10) →
      ∀ wv ∈ resample_weekly_median series,
        wv.2 = if bucket_values series wv.1 = [] then none else some 10 := by
  intro series hconst wv hwv
  unfold resample_weekly_median at hwv
  rcases hmin : seriesMin (series.map fun p => weekOf p.1) with _ | w0 <;>
    rcases hmax : seriesMax (series.map fun p => weekOf p.1) with _ | w1 <;>
      rw [hmin, hmax] at hwv
  · cases hwv
  · cases hwv
  · cases hwv
  · rcases List.mem_map.mp hwv with ⟨i, hi, rfl⟩
    dsimp only
    by_cases hb : bucket_values series (w0 + i) = []
    · rw [if_pos hb, hb]
      rfl
    · rw [if_neg hb]
      apply series_median_const hb
      intro x hx
      rcases List.mem_filterMap.mp hx with ⟨p, hp, hps⟩
      have hpmem : p ∈ series := (List.mem_filter.mp hp).1
      rcases hconst p hpmem with h | h
      · rw [h] at hps
        cases hps
      · rw [h] at hps
        injection hps with h'
        exact h'.symm

/-- Two observations ten days apart, both with value 10. -/
def demo_series : List (Int × Option Rat) := [(0, some 10), (10, some 10)]

/-- Witness for C5 at a concrete input: the bucket of week 0 of the demo
series is nonempty and its weekly median is 10. -/
theorem weekly_median_const_ten_witness :
    (((0 : Int), (some 10 : Option Rat)) ∈ resample_weekly_median demo_series) ∧
    (some 10 : Option Rat) = (if bucket_values demo_series 0 = [] then none else some 10) :=
  ⟨by decide, weekly_median_const_ten demo_series (by decide) ((0 : Int), some 10) (by decide)⟩

/-- pandas Series.quantile(q) with the default linear interpolation: NaN
entries are dropped, the remaining n values are sorted, the virtual position
is q*(n-1), and the result interpolates between the sorted values at the
floor of that position and the next index; NaN (none) when no values remain. -/
def series_quantile (l : List (Option Rat)) (q : Rat) : Option Rat :=
  let xs := sortRat (l.filterMap id)
  let n := xs.length
  if n = 0 then none
  else
    let h := q * ((n - 1 : Nat) : Rat)
    let j := (⌊h⌋).toNat
    let g := h - (⌊h⌋ : Rat)
    match xs[j]?, xs[j + 1]? with
    | some a, some b => some (a + g * (b - a))
    | some a, none => some a
    | _, _ => none

/-- Series.where(series <= q): entries failing the condition are replaced by
NaN in place, absent entries stay absent (a comparison with NaN is false),
and the length and positions of the series are untouched. -/
def series_where_le (l : List (Option Rat)) (q : Rat) : List (Option Rat) :=
  l.map fun v => v.bind fun x => if x ≤ q then some x else none

/-- data_analysis.py create_graph, rain branch: the rain_quantile column —
the 99.999th-percentile value of the rain series, then where(rain <= that
value), computed before any resampling; when the quantile is NaN (empty
series) every comparison is false and the whole column becomes NaN. -/
def rain_quantile_column (l : List (Option Rat)) : List (Option Rat) :=
  match series_quantile l (99999 / 100000) with
  | some q => series_where_le l q
  | none => l.map fun _ => none

/-- Evaluation rule for the quantile in the interpolating case. -/
theorem quantile_eval (l : List (Option Rat)) (q : Rat) (ys : List Rat) (n : Nat)
    (j : Int) (a b : Rat)
    (hsort : sortRat (l.filterMap id) = ys)
    (hn : ys.length = n) (hn0 : n ≠ 0)
    (hj : ⌊q * ((n - 1 : Nat) : Rat)⌋ = j)
    (ha : ys[j.toNat]? = some a) (hb : ys[j.toNat + 1]? = some b) :
    series_quantile l q
      = some (a + (q * ((n - 1 : Nat) : Rat) - (j : Rat)) * (b - a)) := by
  simp only [series_quantile]
  rw [hsort, hn, hj, if_neg hn0, ha, hb]

/-- When the quantile exists, the rain filter is the where-filter at it. -/
theorem rain_quantile_column_of_some {l : List (Option Rat)} {q' : Rat}
    (h : series_quantile l (99999 / 100000) = some q') :
    rain_quantile_column l = series_where_le l q' := by
  unfold rain_quantile_column
  rw [h]

/-- The spec's outlier example: 100000 rain values, 99999 of them 5.0 and one
500.0 at the end. -/
def rain_big : List (Option Rat) := List.replicate 99999 (some (5 : Rat)) ++ [some 500]

/-- The example series without the absent markers is already sorted. -/
theorem rain_sorted : List.Sorted (fun a b : Rat => a ≤ b)
    (List.replicate 99999 (5 : Rat) ++ [500]) := by
  rw [List.Sorted, List.pairwise_append]
  refine ⟨List.pairwise_replicate.mpr (Or.inr le_rfl), List.pairwise_singleton _ _, ?_⟩
  intro a ha b hb
  rw [List.eq_of_mem_replicate ha, List.mem_singleton.mp hb]
  norm_num

/-- The 99.999th percentile of the example series interpolates between the
two largest sorted values (5 and 500), landing just above 5. -/
theorem rain_big_quantile :
    series_quantile rain_big (99999 / 100000) = some (100099 / 20000) := by
  have hsort : sortRat (rain_big.filterMap id) = List.replicate 99999 (5 : Rat) ++ [500] := by
    rw [rain_big, List.filterMap_append, List.filterMap_replicate_of_some (f := id) rfl]
    exact rain_sorted.insertionSort_eq
  have hn : (List.replicate 99999 (5 : Rat) ++ [500]).length = 100000 := by
    rw [List.length_append, List.length_replicate]
    rfl
  have hj : ⌊(99999 / 100000 : Rat) * ((100000 - 1 : Nat) : Rat)⌋ = 99998 := by
    rw [Int.floor_eq_iff]
    constructor <;> norm_num
  have ha : (List.replicate 99999 (5 : Rat) ++ [500])[(99998 : Nat)]? = some 5 := by
    rw [List.getElem?_append, List.length_replicate, if_pos (by norm_num)]
    rw [List.getElem?_replicate_of_lt (by norm_num)]
  have hb : (List.replicate 99999 (5 : Rat) ++ [500])[(99999 : Nat)]? = some 500 := by
    rw [List.getElem?_append, List.length_replicate, if_neg (by norm_num)]
    rfl
  rw [quantile_eval rain_big (99999 / 100000) (List.replicate 99999 (5 : Rat) ++ [500])
    100000 99998 5 500 hsort hn (by norm_num) hj ha hb]
  norm_num

/-- Where-filtering the example series at its 99.999th percentile nulls
exactly the final 500.0 value. -/
theorem rain_big_where :
    series_where_le rain_big (100099 / 20000)
      = List.replicate 99999 (some (5 : Rat)) ++ [none] := by
  have h5 : ((5 : Rat) ≤ 100099 / 20000) := by norm_num
  have h500 : ¬ ((500 : Rat) ≤ 100099 / 20000) := by norm_num
  unfold series_where_le rain_big
  rw [List.map_append, List.map_replicate, List.map_cons, List.map_nil]
  rw [Option.some_bind, Option.some_bind, if_pos h5, if_neg h500]

/-- C6: the rain pre-filter keeps the series length and index positions (so
later bucket boundaries are unchanged), keeps every value at or below the
series' 99.999th-percentile value, replaces exactly the entries above it with
the no-value marker, and on the 100000-value example series nulls only the
one 500.0 value. -/
theorem rain_outlier_filter_spec :
    (∀ (l : List (Option Rat)) (q : Rat),
        series_quantile l (99999 / 100000) = some q →
        (rain_quantile_column l).length = l.length ∧
        ∀ i : Nat, (rain_quantile_column l)[i]? =
          (l[i]?).map fun v => v.bind fun x => if x ≤ q then some x else none) ∧
    rain_quantile_column rain_big = List.replicate 99999 (some (5 : Rat)) ++ [none] := by
  constructor
  · intro l q hq
    rw [rain_quantile_column_of_some hq]
    unfold series_where_le
    constructor
    · exact List.length_map _ _
    · intro i
      exact List.getElem?_map _ _ _
  · rw [rain_quantile_column_of_some rain_big_quantile]
    exact rain_big_where

unseal Rat.add Rat.sub Rat.mul Rat.inv in
/-- Witness for C6 at a concrete input: the singleton series has quantile 0
and passes through the filter unchanged. -/
theorem rain_outlier_filter_spec_witness :
    (rain_quantile_column [some (0 : Rat)]).length = [some (0 : Rat)].length :=
  (rain_outlier_filter_spec.1 [some (0 : Rat)] 0 (by decide)).1

/-- A pandas dataframe as an ordered list of named columns (read_csv yields
the file's columns in file order; cells are the dynamic values read_csv
inferred). -/
structure PyDf where
  cols : List (String × List PyVal)
deriving DecidableEq, Repr

/-- Number of rows: the length of the first column (a frame with no columns
has no rows). -/
def PyDf.nrows (df : PyDf) : Nat :=
  match df.cols with
  | [] => 0
  | c :: _ => c.2.length

/-- Column lookup by name; the modelled inputs always carry the looked-up
column, so the KeyError path is not modelled. -/
def getColVals (df : PyDf) (name : String) : List PyVal :=
  match df.cols.find? (fun c => decide (c.1 = name)) with
  | some c => c.2
  | none => []

/-- Column assignment: overwrites the column in place when the name exists,
otherwise appends a new column at the end (pandas column-assignment
semantics). -/
def setCol (df : PyDf) (name : String) (vals : List PyVal) : PyDf :=
  if df.cols.any (fun c => decide (c.1 = name)) then
    ⟨df.cols.map fun c => if c.1 = name then (name, vals) else c⟩
  else ⟨df.cols ++ [(name, vals)]⟩

/-- pd.to_numeric(errors="coerce") over a whole column: every cell becomes a
float or NaN. -/
def to_numeric_col (vals : List PyVal) : List PyVal :=
  vals.map fun v =>
    match to_numeric_cell v with
    | some x => PyVal.pyFloat x
    | none => PyVal.pyFloatNaN

/-- mapping.iloc[:, idxs]: selects columns by position, raising IndexError
when a position is out of bounds. -/
def ilocCols (df : PyDf) (idxs : List Nat) : Except Unit PyDf :=
  if idxs.all (fun i => decide (i < df.cols.length)) then
    Except.ok ⟨idxs.filterMap (fun i => df.cols[i]?)⟩
  else Except.error ()

/-- fill_db_with_grid.py load_grid after the read_csv: to_numeric on the lat
and lon columns; the id assignment (the frame's 0-based integer index) is
written inside a loop over the frame's rows, so it runs exactly when the
frame has at least one row; finally iloc reorders the columns by position
[2, 0, 1]. -/
def load_grid (df : PyDf) : Except Unit PyDf :=
  let df1 := setCol df ("lat") (to_numeric_col (getColVals df ("lat")))
  let df2 := setCol df1 ("lon") (to_numeric_col (getColVals df1 ("lon")))
  let df3 := if df2.nrows = 0 then df2
    else setCol df2 ("id") ((List.range df2.nrows).map fun k => PyVal.pyInt k)
  ilocCols df3 [2, 0, 1]

/-- Evaluation of load_grid on a nonempty two-column (lat, lon) grid file:
a fresh id column 0..n-1 is appended and the columns come back ordered
(id, lat, lon). -/
theorem load_grid_two_cols (lats lons : List PyVal) (hne : lats ≠ []) :
    load_grid ⟨[("lat", lats), ("lon", lons)]⟩
      = Except.ok ⟨[("id", (List.range lats.length).map fun k => PyVal.pyInt k),
          ("lat", to_numeric_col lats), ("lon", to_numeric_col lons)]⟩ := by
  have h1 : setCol ⟨[("lat", lats), ("lon", lons)]⟩ ("lat")
      (to_numeric_col (getColVals ⟨[("lat", lats), ("lon", lons)]⟩ ("lat")))
      = ⟨[("lat", to_numeric_col lats), ("lon", lons)]⟩ := rfl
  have h2 : setCol ⟨[("lat", to_numeric_col lats), ("lon", lons)]⟩ ("lon")
      (to_numeric_col (getColVals ⟨[("lat", to_numeric_col lats), ("lon", lons)]⟩ ("lon")))
      = ⟨[("lat", to_numeric_col lats), ("lon", to_numeric_col lons)]⟩ := rfl
  have hn : (⟨[("lat", to_numeric_col lats), ("lon", to_numeric_col lons)]⟩ : PyDf).nrows
      = lats.length := by
    show (to_numeric_col lats).length = lats.length
    exact List.length_map _ _
  have hnz : ¬ (lats.length = 0) := fun h => hne (List.length_eq_zero.mp h)
  have h3 : setCol ⟨[("lat", to_numeric_col lats), ("lon", to_numeric_col lons)]⟩ ("id")
      ((List.range lats.length).map fun k => PyVal.pyInt k)
      = ⟨[("lat", to_numeric_col lats), ("lon", to_numeric_col lons),
          ("id", (List.range lats.length).map fun k => PyVal.pyInt k)]⟩ := rfl
  have h4 : ilocCols ⟨[("lat", to_numeric_col lats), ("lon", to_numeric_col lons),
        ("id", (List.range lats.length).map fun k => PyVal.pyInt k)]⟩ [2, 0, 1]
      = Except.ok ⟨[("id", (List.range lats.length).map fun k => PyVal.pyInt k),
          ("lat", to_numeric_col lats), ("lon", to_numeric_col lons)]⟩ := rfl
  simp only [load_grid]
  rw [h1, h2, hn, if_neg hnz, h3, h4]

/-- Evaluation of load_grid on a grid file that also supplies a trailing id
column: the supplied id values are overwritten by the row positions. -/
theorem load_grid_three_cols (lats lons ids : List PyVal) (hne : lats ≠ []) :
    load_grid ⟨[("lat", lats), ("lon", lons), ("id", ids)]⟩
      = Except.ok ⟨[("id", (List.range lats.length).map fun k => PyVal.pyInt k),
          ("lat", to_numeric_col lats), ("lon", to_numeric_col lons)]⟩ := by
  have h1 : setCol ⟨[("lat", lats), ("lon", lons), ("id", ids)]⟩ ("lat")
      (to_numeric_col (getColVals ⟨[("lat", lats), ("lon", lons), ("id", ids)]⟩ ("lat")))
      = ⟨[("lat", to_numeric_col lats), ("lon", lons), ("id", ids)]⟩ := rfl
  have h2 : setCol ⟨[("lat", to_numeric_col lats), ("lon", lons), ("id", ids)]⟩ ("lon")
      (to_numeric_col (getColVals
        ⟨[("lat", to_numeric_col lats), ("lon", lons), ("id", ids)]⟩ ("lon")))
      = ⟨[("lat", to_numeric_col lats), ("lon", to_numeric_col lons), ("id", ids)]⟩ := rfl
  have hn : (⟨[("lat", to_numeric_col lats), ("lon", to_numeric_col lons), ("id", ids)]⟩ :
      PyDf).nrows = lats.length := by
    show (to_numeric_col lats).length = lats.length
    exact List.length_map _ _
  have hnz : ¬ (lats.length = 0) := fun h => hne (List.length_eq_zero.mp h)
  have h3 : setCol ⟨[("lat", to_numeric_col lats), ("lon", to_numeric_col lons), ("id", ids)]⟩
      ("id") ((List.range lats.length).map fun k => PyVal.pyInt k)
      = ⟨[("lat", to_numeric_col lats), ("lon", to_numeric_col lons),
          ("id", (List.range lats.length).map fun k => PyVal.pyInt k)]⟩ := rfl
  have h4 : ilocCols ⟨[("lat", to_numeric_col lats), ("lon", to_numeric_col lons),
        ("id", (List.range lats.length).map fun k => PyVal.pyInt k)]⟩ [2, 0, 1]
      = Except.ok ⟨[("id", (List.range lats.length).map fun k => PyVal.pyInt k),
          ("lat", to_numeric_col lats), ("lon", to_numeric_col lons)]⟩ := rfl
  simp only [load_grid]
  rw [h1, h2, hn, if_neg hnz, h3, h4]

/-- C10: on every nonempty grid file (two columns lat, lon, optionally a
trailing id column) load_grid returns a table whose id column is exactly the
row positions 0..n-1 regardless of any supplied id values, with columns
ordered (id, lat, lon); but on a grid file with zero data rows the id
assignment never runs (it sits inside a per-row loop), no id column exists,
and the iloc column selection raises IndexError instead of returning the
empty (id, lat, lon) table. -/
theorem load_grid_id_assignment :
    (load_grid ⟨[("lat", []), ("lon", [])]⟩ = Except.error ()) ∧
    (∀ (lats lons : List PyVal), lats ≠ [] →
        load_grid ⟨[("lat", lats), ("lon", lons)]⟩
          = Except.ok ⟨[("id", (List.range lats.length).map fun k => PyVal.pyInt k),
              ("lat", to_numeric_col lats), ("lon", to_numeric_col lons)]⟩) ∧
    (∀ (lats lons ids : List PyVal), lats ≠ [] →
        load_grid ⟨[("lat", lats), ("lon", lons), ("id", ids)]⟩
          = Except.ok ⟨[("id", (List.range lats.length).map fun k => PyVal.pyInt k),
              ("lat", to_numeric_col lats), ("lon", to_numeric_col lons)]⟩) :=
  ⟨rfl, load_grid_two_cols, load_grid_three_cols⟩

/-- Witness for C10 at a concrete input: a one-row grid file gets id column
[0] and column order (id, lat, lon). -/
theorem load_grid_id_assignment_witness :
    load_grid ⟨[("lat", [PyVal.pyFloat 1]), ("lon", [PyVal.pyFloat 2])]⟩
      = Except.ok ⟨[("id", [PyVal.pyInt 0]),
          ("lat", [PyVal.pyFloat 1]), ("lon", [PyVal.pyFloat 2])]⟩ :=
  load_grid_id_assignment.2.1 [PyVal.pyFloat 1] [PyVal.pyFloat 2] (List.cons_ne_nil _ _)
